import Mathlib

/-!
Verification of the CloudFormation deployment lifecycle controller in
scripts/deploy.py against its natural-language specification.

The Python source is shallowly embedded: pure helpers become Lean
functions, remote (boto3) interactions are modelled by passing in an
explicit environment of remote responses, and the sequence of remote
calls issued by a code path is returned as an explicit trace list.
-/

namespace Deploy

/-! ## Generic character-list helpers

These model the Python string primitives used by deploy.py
(startswith, endswith, the in operator, lstrip, strip) in a
kernel-friendly, list-based way. -/

/-- charsStartWith s pat is true when the character list s starts with pat.
Models Python str.startswith. -/
def charsStartWith : List Char → List Char → Bool
  | _, [] => true
  | [], _ :: _ => false
  | a :: as, b :: bs => a == b && charsStartWith as bs

/-- charsContain s pat is true when pat occurs as a contiguous sublist of s.
Models the Python expression pat in s. -/
def charsContain : List Char → List Char → Bool
  | [], pat => pat.isEmpty
  | a :: as, pat => charsStartWith (a :: as) pat || charsContain as pat

/-- String version of charsContain: models Python substring membership,
as in the check for the no-updates error message in process_stack. -/
def containsSub (s pat : String) : Bool :=
  charsContain s.toList pat.toList

/-- String version of charsStartWith: models Python str.startswith. -/
def strStarts (s pat : String) : Bool :=
  charsStartWith s.toList pat.toList

/-- Models Python line.lstrip(" "): removes leading space characters only. -/
def stripLeadingSpaces (s : String) : String :=
  String.mk (s.toList.dropWhile (fun c => c == ' '))

/-- Models Python line.lstrip(): removes leading whitespace. -/
def trimLeftWs (s : String) : String :=
  String.mk (s.toList.dropWhile Char.isWhitespace)

/-- Number of leading space characters of a line, as computed in
parse_yaml_template by len(line) - len(line.lstrip(" ")). -/
def leadingSpaces (s : String) : Nat :=
  s.length - (stripLeadingSpaces s).length

/-! ## TemplateSource: read_cloudformation_template -/

/-- Error outcomes of read_cloudformation_template: the file-not-found
exception and the size-limit exception. -/
inductive TemplateError where
  | notFound (path : String)
  | tooLarge
deriving DecidableEq

/-- UTF-8 byte length of a string, modelling Python
len(template.encode(utf-8)). -/
def utf8Len (s : String) : Nat :=
  (s.toList.map Char.utf8Size).sum

/-- Embedding of read_cloudformation_template. The filesystem is passed
explicitly as a partial map from paths to file contents; a missing entry
models the FileNotFoundError branch. The source raises the size error
only when the UTF-8 byte length is strictly greater than 51200. -/
def read_cloudformation_template (fs : String → Option String) (path : String) :
    Except TemplateError String :=
  match fs path with
  | none => .error (.notFound path)
  | some template =>
    if utf8Len template > 51200 then .error .tooLarge
    else .ok template

/-! ## StatusPoller: monitor_stack_until_complete -/

/-- The fixed terminal allow-list of the single-entity pollers
(deploy.py lines 727 and 794). -/
def terminalStates : List String :=
  ["CREATE_COMPLETE", "ROLLBACK_COMPLETE", "UPDATE_COMPLETE",
   "UPDATE_ROLLBACK_COMPLETE", "DELETE_COMPLETE", "CURRENT", "ACTIVE"]

/-- Membership in the terminal allow-list. -/
def isTerminal (s : String) : Bool :=
  terminalStates.contains s

/-- One iteration of the while-loop of monitor_stack_until_complete:
read the next status; if terminal, sleep 5 seconds and stop; otherwise
sleep 1 second and loop. The result is the list of sleep durations, or
none when the status stream is exhausted without reaching a terminal
status (the real loop would still be spinning). -/
def monitorLoop : List String → Option (List Nat)
  | [] => none
  | s :: rest =>
    if isTerminal s then some [5]
    else (monitorLoop rest).map (fun t => 1 :: t)

/-- Embedding of monitor_stack_until_complete over an explicit stream of
statuses returned by successive describe_stacks reads. Under dry-run the
function returns before any read. If the first read is terminal it
returns immediately with no sleep at all; otherwise it enters the loop. -/
def monitor_stack_until_complete (dry : Bool) (statuses : List String) :
    Option (List Nat) :=
  if dry then some []
  else
    match statuses with
    | [] => none
    | s :: rest =>
      if isTerminal s then some []
      else monitorLoop rest

/-! ## StatusPoller error handling (the except-clauses of the loops) -/

/-- Kinds of exception that can be raised by a status read inside a
polling loop, mirroring the botocore exception classes used in the
except clauses. In botocore, WaiterError is a subclass of BotoCoreError,
while ClientError (and every service exception such as
OperationInProgressException) is not. -/
inductive PollErr where
  /-- WaiterError whose last response carries code ThrottlingException. -/
  | throttlingWaiter
  /-- WaiterError with any other error code. -/
  | otherWaiter
  /-- The conflicting-operation-in-progress service signal, a ClientError. -/
  | opInProgress
  /-- A BotoCoreError that is not a WaiterError, e.g. a connection failure. -/
  | connectionBotoCore
  /-- Any other client error from the read. -/
  | clientOther
deriving DecidableEq

/-- What a polling loop does with an exception raised by a read. -/
inductive HandlerOut where
  | retryAfter (secs : Nat)
  | propagate
deriving DecidableEq

/-- True exactly when the handler re-raises the error to the caller. -/
def HandlerOut.isPropagate : HandlerOut → Bool
  | .propagate => true
  | _ => false

/-- The except-clauses of monitor_stack_until_complete (lines 761-770):
WaiterError with ThrottlingException backs off 5 seconds and retries,
any other WaiterError is re-raised, the OperationInProgressException
clause backs off 30 seconds and retries, and everything else is
uncaught and propagates. -/
def stackPollHandler : PollErr → HandlerOut
  | .throttlingWaiter => .retryAfter 5
  | .otherWaiter => .propagate
  | .opInProgress => .retryAfter 30
  | .connectionBotoCore => .propagate
  | .clientOther => .propagate

/-- The except-clauses of monitor_stackset_until_complete (lines 829-838)
and monitor_stackset_stacks_until_complete (lines 903-912): WaiterError
with ThrottlingException backs off 5 seconds, any other WaiterError is
re-raised from inside its own clause, and a blanket BotoCoreError clause
backs off 30 seconds and retries. The conflicting-operation service
signal is a ClientError, not a BotoCoreError, so it is uncaught here and
propagates, as does any other client error. -/
def stacksetPollHandler : PollErr → HandlerOut
  | .throttlingWaiter => .retryAfter 5
  | .otherWaiter => .propagate
  | .opInProgress => .propagate
  | .connectionBotoCore => .retryAfter 30
  | .clientOther => .propagate

/-! ## StackSet request shapes -/

/-- The OperationPreferences dictionary passed by update_stack_set and
create_stack_set_instances. -/
structure OperationPreferences where
  regionConcurrencyType : String
  failureTolerancePercentage : Nat
  maxConcurrentPercentage : Nat
  concurrencyMode : String
deriving DecidableEq

/-- The AutoDeployment dictionary passed by create_stack_set. -/
structure AutoDeployment where
  enabled : Bool
  retainStacksOnAccountRemoval : Bool
deriving DecidableEq

/-- The extra keyword arguments a stackset-level call forwards to the
remote create_stack_set or update_stack_set request. -/
structure StackSetExtraArgs where
  permissionModel : Option String
  autoDeployment : Option AutoDeployment
  operationPreferences : Option OperationPreferences
deriving DecidableEq

/-- The keyword arguments of create_stack_set (deploy.py lines 657-663):
service-managed permissions and auto-deployment, with no operation
preferences in the create request. -/
def create_stack_set_extra_args : StackSetExtraArgs :=
  { permissionModel := some "SERVICE_MANAGED"
    autoDeployment := some { enabled := true, retainStacksOnAccountRemoval := false }
    operationPreferences := none }

/-- The operation preferences passed by update_stack_set (lines 649-654)
and by create_stack_set_instances (lines 688-693). -/
def parallel_op_prefs : OperationPreferences :=
  { regionConcurrencyType := "PARALLEL"
    failureTolerancePercentage := 0
    maxConcurrentPercentage := 100
    concurrencyMode := "SOFT_FAILURE_TOLERANCE" }

/-- The keyword arguments of update_stack_set (deploy.py lines 647-654). -/
def update_stack_set_extra_args : StackSetExtraArgs :=
  { permissionModel := none
    autoDeployment := none
    operationPreferences := some parallel_op_prefs }

/-- The DeploymentTargets dictionary built by create_stack_set_instances. -/
structure DeploymentTargets where
  organizationalUnitIds : List String
  accounts : List String
  accountFilterType : Option String
deriving DecidableEq

/-- Embedding of the deployment-targets construction in
create_stack_set_instances (lines 675-682): the organizational unit is
always named; when except_account is truthy (a non-empty string) the
targets additionally carry Accounts = [except_account] together with
AccountFilterType DIFFERENCE. -/
def deployment_targets (root_ou : String) (except_account : Option String) :
    DeploymentTargets :=
  match except_account with
  | none => { organizationalUnitIds := [root_ou], accounts := [], accountFilterType := none }
  | some a =>
    if a == "" then
      { organizationalUnitIds := [root_ou], accounts := [], accountFilterType := none }
    else
      { organizationalUnitIds := [root_ou], accounts := [a],
        accountFilterType := some "DIFFERENCE" }

/-- The accounts a DeploymentTargets value names for inclusion. With
filter type DIFFERENCE the Accounts list is an exclusion list, so no
account is directly included; otherwise the Accounts list is the
inclusion list. -/
def includedAccounts (dt : DeploymentTargets) : List String :=
  if dt.accountFilterType = some "DIFFERENCE" then [] else dt.accounts

/-- The full argument dictionary of the create_stack_instances request
built by create_stack_set_instances (lines 684-694). -/
structure CreateInstancesArgs where
  stackSetName : String
  deploymentTargets : DeploymentTargets
  regions : List String
  operationPreferences : OperationPreferences
deriving DecidableEq

/-- Embedding of the args dictionary of create_stack_set_instances. -/
def create_stack_instances_args (stack_set_name root_ou : String)
    (except_account : Option String) (deployment_regions : List String) :
    CreateInstancesArgs :=
  { stackSetName := stack_set_name
    deploymentTargets := deployment_targets root_ou except_account
    regions := deployment_regions
    operationPreferences := parallel_op_prefs }

/-! ## StackController: process_stack

The remote boto3 client is modelled by an environment of responses, one
per call site; each response is either a successful payload or a raised
exception. The embedding returns the computed result together with the
trace of remote calls issued, in order. -/

/-- Exceptions raised by remote calls inside process_stack. Only
ClientError is caught by the handler at the bottom of process_stack;
waiter failures and any other exception propagate uncaught. -/
inductive CFErr where
  | clientError (msg : String)
  | waiterError (msg : String)
  | otherError (msg : String)
deriving DecidableEq

/-- The fields of a describe_change_set response used by process_stack. -/
structure ChangeSetDesc where
  status : String
  statusReason : String
deriving DecidableEq

/-- Remote responses for one invocation of process_stack or
create_stack_set_instances, one entry per call site in the source. -/
structure RemoteEnv where
  createStackRes : Except CFErr Unit
  createChangeSetRes : Except CFErr Unit
  describeChangeSet1 : Except CFErr ChangeSetDesc
  changeSetWaiterRes : Except CFErr Unit
  describeChangeSet2 : Except CFErr ChangeSetDesc
  executeChangeSetRes : Except CFErr Unit
  createStackSetRes : Except CFErr Unit
  updateStackSetRes : Except CFErr Unit
  createStackInstancesRes : Except CFErr Unit

/-- The remote CloudFormation calls process_stack and
create_stack_set_instances can issue. -/
inductive RemoteCall where
  | createStack
  | createChangeSet
  | describeChangeSet
  | waitChangeSetCreateComplete
  | executeChangeSet
  | createStackSet
  | updateStackSet
  | createStackInstances
deriving DecidableEq

/-- The calls of the remote control plane that mutate state, as
enumerated by the dry-run invariant of the specification. -/
def isMutating : RemoteCall → Bool
  | .createStack => true
  | .executeChangeSet => true
  | .createStackSet => true
  | .updateStackSet => true
  | .createStackInstances => true
  | _ => false

/-- The action argument of process_stack. -/
inductive Action where
  | create
  | update
deriving DecidableEq

/-- The resource_type argument of process_stack. -/
inductive ResType where
  | stack
  | stackset
deriving DecidableEq

/-- The per-(job, account, region) outcome of process_stack, read off
its return value: False after a dry-run cutoff is Skipped-DryRun, False
after the no-changes classification is NoChanges, and a truthy return
from the create or update path is Created or Updated respectively. -/
inductive Outcome where
  | created
  | updated
  | noChanges
  | skippedDryRun
deriving DecidableEq

/-- The status-reason substring that classifies an immediately failed
change set as containing no changes (deploy.py line 480). -/
def noChangesReason : String :=
  "The submitted information didn\x27t contain changes."

/-- The error-message substring that classifies a ClientError as the
no-updates case (deploy.py line 519). -/
def noUpdatesMsg : String :=
  "No updates are to be performed"

/-- The try-block of process_stack: the branch structure of deploy.py
lines 446-516, with each remote call recorded in the returned trace and
each raised exception short-circuiting as an error. -/
def process_stack_try (action : Action) (rtype : ResType) (dry : Bool)
    (env : RemoteEnv) : Except CFErr Outcome × List RemoteCall :=
  match rtype with
  | .stack =>
    match action with
    | .create =>
      if dry then (.ok .skippedDryRun, [])
      else
        match env.createStackRes with
        | .error e => (.error e, [.createStack])
        | .ok _ => (.ok .created, [.createStack])
    | .update =>
      match env.createChangeSetRes with
      | .error e => (.error e, [.createChangeSet])
      | .ok _ =>
        match env.describeChangeSet1 with
        | .error e => (.error e, [.createChangeSet, .describeChangeSet])
        | .ok d1 =>
          if d1.status == "FAILED" && containsSub d1.statusReason noChangesReason then
            (.ok .noChanges, [.createChangeSet, .describeChangeSet])
          else
            match env.changeSetWaiterRes with
            | .error e =>
              (.error e,
               [.createChangeSet, .describeChangeSet, .waitChangeSetCreateComplete])
            | .ok _ =>
              match env.describeChangeSet2 with
              | .error e =>
                (.error e,
                 [.createChangeSet, .describeChangeSet,
                  .waitChangeSetCreateComplete, .describeChangeSet])
              | .ok _ =>
                if dry then
                  (.ok .skippedDryRun,
                   [.createChangeSet, .describeChangeSet,
                    .waitChangeSetCreateComplete, .describeChangeSet])
                else
                  match env.executeChangeSetRes with
                  | .error e =>
                    (.error e,
                     [.createChangeSet, .describeChangeSet,
                      .waitChangeSetCreateComplete, .describeChangeSet,
                      .executeChangeSet])
                  | .ok _ =>
                    (.ok .updated,
                     [.createChangeSet, .describeChangeSet,
                      .waitChangeSetCreateComplete, .describeChangeSet,
                      .executeChangeSet])
  | .stackset =>
    if dry then (.ok .skippedDryRun, [])
    else
      match action with
      | .create =>
        match env.createStackSetRes with
        | .error e => (.error e, [.createStackSet])
        | .ok _ => (.ok .created, [.createStackSet])
      | .update =>
        match env.updateStackSetRes with
        | .error e => (.error e, [.updateStackSet])
        | .ok _ => (.ok .updated, [.updateStackSet])

/-- The except-clause of process_stack (lines 518-523): a ClientError
whose message contains the no-updates substring becomes the NoChanges
result; every other ClientError, and every non-client exception, is
re-raised unchanged. -/
def handleClientError (r : Except CFErr Outcome × List RemoteCall) :
    Except CFErr Outcome × List RemoteCall :=
  match r.1 with
  | .error (.clientError msg) =>
    if containsSub msg noUpdatesMsg then (.ok .noChanges, r.2) else r
  | _ => r

/-- Embedding of process_stack: the try-block wrapped in the
ClientError classification. -/
def process_stack (action : Action) (rtype : ResType) (dry : Bool)
    (env : RemoteEnv) : Except CFErr Outcome × List RemoteCall :=
  handleClientError (process_stack_try action rtype dry env)

/-- Embedding of create_stack_set_instances (lines 666-703): under
dry-run it returns False before obtaining a client, issuing no call and
building no arguments; otherwise it builds the args dictionary and
issues create_stack_instances, re-raising any ClientError after logging. -/
def create_stack_set_instances (stack_set_name root_ou : String)
    (except_account : Option String) (deployment_regions : List String)
    (dry : Bool) (env : RemoteEnv) :
    Except CFErr Bool × List RemoteCall × Option CreateInstancesArgs :=
  if dry then (.ok false, [], none)
  else
    let args := create_stack_instances_args stack_set_name root_ou
      except_account deployment_regions
    match env.createStackInstancesRes with
    | .error e => (.error e, [.createStackInstances], some args)
    | .ok _ => (.ok true, [.createStackInstances], some args)

/-! ## StackSetController: handle_stack_set

handle_stack_set is modelled at the granularity of the script-level
functions it invokes, with the boolean results of the existence probes
and the truthiness of the update and create results supplied as an
environment. The value of the embedding is the ordered trace of those
invocations. -/

/-- The environment of handle_stack_set: existence probe results and
whether each mutating step reports a change in progress. -/
structure HsEnv where
  stacksetExists : Bool
  stacksetChanging : Bool
  stackExists : String → Bool
  stackUpdateChanging : String → Bool
  stackCreateChanging : String → Bool

/-- The script-level calls handle_stack_set performs, each recording the
account and region arguments it is given. -/
inductive HLCall where
  | doesStacksetExistCall (account region : String)
  | monitorStacksetCall (account region : String)
  | monitorStacksetStacksCall (account region : String)
  | updateStackSetCall (account region : String)
  | createStackSetCall (account region : String)
  | createInstancesCall (account region : String)
  | doesStackExistCall (account region : String)
  | monitorStackCall (account region : String)
  | updateStackCall (account region : String)
  | createStackCall (account region : String)
deriving DecidableEq

/-- True for the calls that reconcile a standalone stack by mutation
(update_stack or create_stack). -/
def isStackWrite : HLCall → Bool
  | .updateStackCall _ _ => true
  | .createStackCall _ _ => true
  | _ => false

/-- The (account, region) pair a script-level call is directed at. -/
def callTarget : HLCall → String × String
  | .doesStacksetExistCall a r => (a, r)
  | .monitorStacksetCall a r => (a, r)
  | .monitorStacksetStacksCall a r => (a, r)
  | .updateStackSetCall a r => (a, r)
  | .createStackSetCall a r => (a, r)
  | .createInstancesCall a r => (a, r)
  | .doesStackExistCall a r => (a, r)
  | .monitorStackCall a r => (a, r)
  | .updateStackCall a r => (a, r)
  | .createStackCall a r => (a, r)

/-- The stackset phase of handle_stack_set (lines 999-1015): probe for
the stackset in the main region, then either monitor and update it, or
create it, monitor, create its instances, and monitor the instances. -/
def stacksetPhase (account main_region : String) (env : HsEnv) : List HLCall :=
  if env.stacksetExists then
    [.doesStacksetExistCall account main_region,
     .monitorStacksetCall account main_region,
     .monitorStacksetStacksCall account main_region,
     .updateStackSetCall account main_region]
    ++ (if env.stacksetChanging then [.monitorStacksetCall account main_region] else [])
  else
    [.doesStacksetExistCall account main_region,
     .createStackSetCall account main_region,
     .monitorStacksetCall account main_region,
     .createInstancesCall account main_region,
     .monitorStacksetStacksCall account main_region]

/-- One iteration of the admin-account mirroring loop of
handle_stack_set (lines 1021-1037): the existence probe targets the
admin account while the monitor, update and create steps are passed the
account argument of handle_stack_set. -/
def mirrorRegion (account admin region : String) (env : HsEnv) : List HLCall :=
  if env.stackExists region then
    [.doesStackExistCall admin region,
     .monitorStackCall account region,
     .updateStackCall account region]
    ++ (if env.stackUpdateChanging region then [.monitorStackCall account region] else [])
  else
    [.doesStackExistCall admin region,
     .createStackCall account region]
    ++ (if env.stackCreateChanging region then [.monitorStackCall account region] else [])

/-- Embedding of handle_stack_set as its trace of script-level calls:
the stackset phase, then, unless the excluded account equals the admin
account, the mirroring loop once per declared region. -/
def handle_stack_set (account : String) (regions : List String)
    (main_region : String) (except_account : Option String)
    (admin_account_id : String) (env : HsEnv) : List HLCall :=
  stacksetPhase account main_region env
  ++ (if except_account = some admin_account_id then []
      else regions.flatMap (fun r => mirrorRegion account admin_account_id r env))

/-! ## ResourceDiffPreviewer: parse_template and parse_yaml_template -/

/-- A JSON value, as produced by the structured parse attempted first by
parse_template. -/
inductive Json where
  | null
  | str (s : String)
  | num (n : Int)
  | boolean (b : Bool)
  | arr (elems : List Json)
  | obj (fields : List (String × Json))

/-- Python dict.get(key) on a JSON value. The source only ever applies
it to dict-shaped values; applying .get to a non-dict raises in Python,
and the claims below only exercise dict-shaped documents. -/
def getMember (j : Json) (k : String) : Option Json :=
  match j with
  | .obj fields => fields.lookup k
  | _ => none

/-- The comprehension of parse_template (line 591): each entry of the
Resources dict becomes the pair of its logical name and its Type member,
which is None when the resource declares no Type field. -/
def resourceEntries (res : List (String × Json)) : List (String × Option Json) :=
  res.map (fun p => (p.1, getMember p.2 "Type"))

/-- The structured (JSON) path of parse_template (lines 585-592):
parsed.get with default takes the Resources dict, or the empty dict when
the key is absent. -/
def parse_template_structured (parsed : Json) : List (String × Option Json) :=
  match getMember parsed "Resources" with
  | some (Json.obj res) => resourceEntries res
  | _ => []

/-- The single-quote character, written by code point to keep the file
free of quote literals. -/
def quoteChar : Char := Char.ofNat 39

/-- Member of the strip set of Python .strip(" \x22\x27") used on the
Type value. -/
def isTQchar (c : Char) : Bool :=
  c == ' ' || c == '"' || c == quoteChar

/-- Python s.strip(" \x22\x27"): removes spaces and both quote
characters from both ends. -/
def stripBothTQ (s : String) : String :=
  String.mk (((s.toList.dropWhile isTQchar).reverse.dropWhile isTQchar).reverse)

/-- True when the stripped line ends with a colon, as tested by
endswith in parse_yaml_template. -/
def lastIsColon (s : String) : Bool :=
  s.toList.getLast? == some ':'

/-- The indentation level of a line: leading spaces divided by the
indentation unit, as computed in parse_yaml_template line 628. -/
def indentLvl (k : Nat) (l : String) : Nat :=
  leadingSpaces l / k

/-- A line that introduces a logical resource name: indentation level 1
and a stripped form ending in a colon (line 629). -/
def isKey1 (k : Nat) (l : String) : Bool :=
  indentLvl k l == 1 && lastIsColon (stripLeadingSpaces l)

/-- The logical name carried by a key line: the stripped line without
its trailing colon (line 630). -/
def keyName (l : String) : String :=
  String.mk ((stripLeadingSpaces l).toList.dropLast)

/-- A line that declares a resource type: indentation level 2 and a
stripped form starting with the Type field marker (line 631). -/
def isType2 (k : Nat) (l : String) : Bool :=
  indentLvl k l == 2 && strStarts (stripLeadingSpaces l) "Type:"

/-- The declared type carried by a Type line: everything after the
field marker, stripped of spaces and quotes (line 632). -/
def typeVal (l : String) : String :=
  stripBothTQ (String.mk ((stripLeadingSpaces l).toList.drop 5))

/-- The extraction loop of parse_yaml_template (lines 624-636), with the
pending logical name as explicit state: a key line at level 1 records a
new pending name, a Type line at level 2 emits the pending pair and
clears the pending name, and every other line leaves the state alone. -/
def processAux (k : Nat) : Option String → List String → List (String × String)
  | _, [] => []
  | logical, l :: ls =>
    if isKey1 k l then
      processAux k (some (keyName l)) ls
    else if isType2 k l then
      match logical with
      | some nm => (nm, typeVal l) :: processAux k none ls
      | none => processAux k none ls
    else
      processAux k logical ls

/-- The line filter of parse_yaml_template (line 603): drop blank lines
and comment lines. -/
def notBlankNotComment (l : String) : Bool :=
  !(l.trim == "") && !(strStarts (trimLeftWs l) "#")

/-- Embedding of parse_yaml_template (lines 598-636): split into lines,
filter, locate the Resources section, cut it at the first line without
leading indentation, take the indentation unit from its first line, and
run the extraction loop. -/
def parse_yaml_template (template : String) : List (String × String) :=
  let lines := (template.splitOn "\n").filter notBlankNotComment
  match lines.findIdx? (fun l => strStarts l "Resources:") with
  | none => []
  | some i =>
    let rest := lines.drop (i + 1)
    let sect := rest.takeWhile (fun l => strStarts l " ")
    match sect.head? with
    | none => []
    | some first => processAux (leadingSpaces first) none sect

/-- Embedding of parse_template (lines 583-595): the result of the
attempted JSON parse is passed in explicitly; on parse failure the
line-oriented fallback runs. The fallback always produces concrete type
strings, so its pairs are injected with a present type component. -/
def parse_template (jsonParse : Option Json) (template : String) :
    List (String × Option Json) :=
  match jsonParse with
  | some parsed => parse_template_structured parsed
  | none => (parse_yaml_template template).map (fun p => (p.1, some (Json.str p.2)))

/-! ## Helper lemmas -/

/-- The byte length of a string of n ASCII letters is n. -/
theorem utf8Len_replicate (n : Nat) :
    utf8Len (String.mk (List.replicate n 'a')) = n := by
  have h : Char.utf8Size 'a' = 1 := by decide
  simp [utf8Len, String.toList, List.map_replicate, List.sum_replicate, h, smul_eq_mul]

/-- A template of exactly 51200 bytes, sitting on the size ceiling. -/
def boundary_template : String := String.mk (List.replicate 51200 'a')

/-- The except-clause of process_stack never changes the recorded trace
of remote calls. -/
theorem handleClientError_snd (r : Except CFErr Outcome × List RemoteCall) :
    (handleClientError r).2 = r.2 := by
  rcases r with ⟨f, c⟩
  rcases f with e | o
  · cases e with
    | clientError msg =>
      by_cases hc : containsSub msg noUpdatesMsg <;> simp [handleClientError, hc]
    | waiterError msg => rfl
    | otherError msg => rfl
  · rfl

/-- An outcome consistent with the dry-run invariant: the operation
either reports Skipped-DryRun or NoChanges, or raises. -/
def dryOutcomeOk : Except CFErr Outcome → Bool
  | .ok o => o == .skippedDryRun || o == .noChanges
  | .error _ => true

/-- The except-clause of process_stack preserves dry-run-consistent
results: it can only replace an error by the NoChanges outcome. -/
theorem handleClientError_dryOk (r : Except CFErr Outcome × List RemoteCall)
    (h : dryOutcomeOk r.1 = true) : dryOutcomeOk (handleClientError r).1 = true := by
  rcases r with ⟨f, c⟩
  rcases f with e | o
  · cases e with
    | clientError msg =>
      by_cases hc : containsSub msg noUpdatesMsg
      · simp [handleClientError, hc, dryOutcomeOk]
      · simpa [handleClientError, hc] using h
    | waiterError msg => exact h
    | otherError msg => exact h
  · exact h

/-- Under dry-run the try-block of process_stack issues no mutating call
and produces a dry-run-consistent result. -/
theorem process_stack_try_dry (a : Action) (rt : ResType) (env : RemoteEnv) :
    (process_stack_try a rt true env).2.filter isMutating = []
    ∧ dryOutcomeOk (process_stack_try a rt true env).1 = true := by
  cases a <;> cases rt <;>
    simp only [process_stack_try] <;>
    (repeat' split) <;>
    simp_all [isMutating, dryOutcomeOk]

/-- monitorLoop sleeps one second per non-terminal read and five seconds
after the first terminal read, then stops. -/
theorem monitorLoop_reaches (pre : List String) (s : String) (rest : List String)
    (hpre : ∀ x ∈ pre, isTerminal x = false) (hs : isTerminal s = true) :
    monitorLoop (pre ++ s :: rest) = some (List.replicate pre.length 1 ++ [5]) := by
  induction pre with
  | nil => simp [monitorLoop, hs]
  | cons a as ih =>
    have ha : isTerminal a = false := hpre a (by simp)
    have hrec := ih (fun x hx => hpre x (by simp [hx]))
    simp [monitorLoop, ha, hrec, List.replicate_succ]

/-- A line that is neither a key line nor a Type line leaves the
extraction state untouched. -/
theorem processAux_skip (k : Nat) (logical : Option String) (l : String)
    (ls : List String) (h1 : isKey1 k l = false) (h2 : isType2 k l = false) :
    processAux k logical (l :: ls) = processAux k logical ls := by
  cases logical <;> simp [processAux, h1, h2]

/-- A pending logical name with no Type line at level 2 before the next
key line contributes nothing: the parse is the same as if the name had
never been recorded. -/
theorem processAux_pending_drop (k : Nat) (n : String) (lines : List String)
    (h : ∀ l ∈ lines.takeWhile (fun l => !(isKey1 k l)), isType2 k l = false) :
    processAux k (some n) lines = processAux k none lines := by
  induction lines with
  | nil => rfl
  | cons a as ih =>
    by_cases hk : isKey1 k a
    · simp [processAux, hk]
    · have htw : (a :: as).takeWhile (fun l => !(isKey1 k l))
          = a :: as.takeWhile (fun l => !(isKey1 k l)) := by
        simp [List.takeWhile_cons, hk]
      have ha : isType2 k a = false := h a (by rw [htw]; exact List.mem_cons_self a _)
      have hrec := ih (fun l hl => h l (by rw [htw]; exact List.mem_cons_of_mem a hl))
      simp [processAux, hk, ha, hrec]

/-- A pending logical name followed, before any further key line, by a
Type line at level 2 is emitted with that type value. -/
theorem processAux_pending_emit (k : Nat) (n : String) (pre : List String)
    (l0 : String) (rest : List String)
    (hpre : ∀ l ∈ pre, isKey1 k l = false ∧ isType2 k l = false)
    (hk : isKey1 k l0 = false) (ht : isType2 k l0 = true) :
    processAux k (some n) (pre ++ l0 :: rest)
      = (n, typeVal l0) :: processAux k none rest := by
  induction pre with
  | nil => simp [processAux, hk, ht]
  | cons a as ih =>
    obtain ⟨h1, h2⟩ := hpre a (by simp)
    have hrec := ih (fun l hl => hpre l (by simp [hl]))
    simpa [processAux_skip k (some n) a _ h1 h2] using hrec

/-- Every entry of the Resources dict appears in the structured preview
with its (possibly absent) Type member. -/
theorem resourceEntries_mem (res : List (String × Json)) (n : String) (d : Json)
    (hmem : (n, d) ∈ res) : (n, getMember d "Type") ∈ resourceEntries res :=
  List.mem_map_of_mem _ hmem

/-! ## Claims -/

/-- C3: for every stackset instance-creation call with a non-empty
exceptAccount A, the deployment targets name the organizational unit and
carry an account filter of type DIFFERENCE listing exactly A, so that A
is never a directly included account; with exceptAccount absent only the
organizational unit is named. -/
theorem c3_exclusion_filter :
    (∀ (n ou a : String) (rs : List String), a ≠ "" →
      (create_stack_instances_args n ou (some a) rs).deploymentTargets.organizationalUnitIds = [ou]
      ∧ (create_stack_instances_args n ou (some a) rs).deploymentTargets.accountFilterType
          = some "DIFFERENCE"
      ∧ (create_stack_instances_args n ou (some a) rs).deploymentTargets.accounts = [a]
      ∧ includedAccounts (create_stack_instances_args n ou (some a) rs).deploymentTargets = [])
    ∧ (∀ (n ou : String) (rs : List String),
        (create_stack_instances_args n ou none rs).deploymentTargets
          = { organizationalUnitIds := [ou], accounts := [], accountFilterType := none }) := by
  constructor
  · intro n ou a rs ha
    have hb : (a == "") = false := by simpa using ha
    simp [create_stack_instances_args, deployment_targets, hb, includedAccounts]
  · intro n ou rs
    simp [create_stack_instances_args, deployment_targets]

/-- C3 witness: a concrete excluded account is carried only under the
DIFFERENCE filter, never as a directly included account. -/
theorem c3_witness :
    (create_stack_instances_args "SOC" "ou-root" (some "999911112222")
      ["us-east-1"]).deploymentTargets.accountFilterType = some "DIFFERENCE"
    ∧ includedAccounts (create_stack_instances_args "SOC" "ou-root" (some "999911112222")
        ["us-east-1"]).deploymentTargets = [] := by
  have h := c3_exclusion_filter.1 "SOC" "ou-root" "999911112222" ["us-east-1"] (by decide)
  exact ⟨h.2.1, h.2.2.2⟩

/-- C5 counterexample: a template of exactly 51200 UTF-8 bytes is at the
ceiling, yet the loader returns its text instead of failing with the
size error, because the source only rejects strictly larger templates. -/
theorem c5_counterexample :
    read_cloudformation_template (fun _ => some boundary_template) "template.yaml"
      = .ok boundary_template
    ∧ utf8Len boundary_template = 51200 := by
  have h : utf8Len boundary_template = 51200 := utf8Len_replicate 51200
  refine ⟨?_, h⟩
  simp [read_cloudformation_template, h]

/-- C5 amended: for every template of UTF-8 byte length at most 51200,
ceiling included, the loader returns the exact text; strictly above the
ceiling it fails with the size error; an unreadable path fails with the
not-found error. -/
theorem c5_amended (fs : String → Option String) (path : String) :
    (fs path = none →
      read_cloudformation_template fs path = .error (.notFound path))
    ∧ (∀ t, fs path = some t → utf8Len t ≤ 51200 →
        read_cloudformation_template fs path = .ok t)
    ∧ (∀ t, fs path = some t → 51200 < utf8Len t →
        read_cloudformation_template fs path = .error .tooLarge) := by
  refine ⟨fun h => by simp [read_cloudformation_template, h],
    fun t h hle => ?_, fun t h hgt => ?_⟩
  · simp [read_cloudformation_template, h, Nat.not_lt.mpr hle]
  · simp [read_cloudformation_template, h, hgt]

/-- A tiny filesystem for the C5 witness. -/
def fsWitness : String → Option String :=
  fun p => if p == "main.yaml" then some "Resources:" else none

/-- C5 witness: a small readable template is returned verbatim and a
missing path yields the not-found error. -/
theorem c5_witness :
    read_cloudformation_template fsWitness "main.yaml" = .ok "Resources:"
    ∧ read_cloudformation_template fsWitness "missing.yaml"
        = .error (.notFound "missing.yaml") := by
  constructor
  · exact (c5_amended fsWitness "main.yaml").2.1 "Resources:" (by rfl) (by decide)
  · exact (c5_amended fsWitness "missing.yaml").1 (by rfl)

/-- C6: the single-entity poller returns immediately with no sleep when
the first status read is in the terminal allow-list; otherwise it loops,
sleeping one second per further non-terminal read, and once a read lands
in the allow-list it sleeps five seconds and returns. -/
theorem c6_terminal_classification (s : String) (rest : List String) :
    (isTerminal s = true →
      monitor_stack_until_complete false (s :: rest) = some [])
    ∧ (isTerminal s = false →
        ∀ pre t rest2, rest = pre ++ t :: rest2 →
          (∀ x ∈ pre, isTerminal x = false) → isTerminal t = true →
          monitor_stack_until_complete false (s :: rest)
            = some (List.replicate pre.length 1 ++ [5])) := by
  constructor
  · intro h
    simp [monitor_stack_until_complete, h]
  · intro h pre t rest2 hr hpre ht
    subst hr
    simp [monitor_stack_until_complete, h, monitorLoop_reaches pre t rest2 hpre ht]

/-- C6 witness: an already-terminal first read returns with no sleep; a
stream that becomes terminal on the third read sleeps once for one
second and then five seconds. -/
theorem c6_witness :
    monitor_stack_until_complete false ["UPDATE_COMPLETE"] = some []
    ∧ monitor_stack_until_complete false
        ["UPDATE_IN_PROGRESS", "UPDATE_IN_PROGRESS", "UPDATE_COMPLETE"]
        = some [1, 5] := by
  constructor
  · exact (c6_terminal_classification "UPDATE_COMPLETE" []).1 (by decide)
  · have h := (c6_terminal_classification "UPDATE_IN_PROGRESS"
      ["UPDATE_IN_PROGRESS", "UPDATE_COMPLETE"]).2 (by decide)
      ["UPDATE_IN_PROGRESS"] "UPDATE_COMPLETE" [] rfl (by decide) (by decide)
    simpa using h

/-- C7 counterexample: in the stackset polling loops a botocore-core
error that is not a conflicting-operation signal, such as a connection
failure, is retried after a 30-second backoff instead of being
propagated, contradicting the claim that every error other than the
rate-limit and conflicting-operation signals propagates. -/
theorem c7_counterexample :
    stacksetPollHandler .connectionBotoCore = .retryAfter 30
    ∧ (stacksetPollHandler .connectionBotoCore).isPropagate = false :=
  ⟨rfl, rfl⟩

/-- C7 amended: in the single-stack polling loop a rate-limit waiter
signal backs off five seconds and retries, the conflicting-operation
clause backs off thirty seconds and retries, and every other error
propagates; in the stackset polling loops the thirty-second retry clause
instead covers any botocore-core error, while the conflicting-operation
client signal and all other client errors propagate. -/
theorem c7_amended :
    stackPollHandler .throttlingWaiter = .retryAfter 5
    ∧ stackPollHandler .otherWaiter = .propagate
    ∧ stackPollHandler .opInProgress = .retryAfter 30
    ∧ stackPollHandler .connectionBotoCore = .propagate
    ∧ stackPollHandler .clientOther = .propagate
    ∧ stacksetPollHandler .throttlingWaiter = .retryAfter 5
    ∧ stacksetPollHandler .otherWaiter = .propagate
    ∧ stacksetPollHandler .connectionBotoCore = .retryAfter 30
    ∧ stacksetPollHandler .opInProgress = .propagate
    ∧ stacksetPollHandler .clientOther = .propagate :=
  ⟨rfl, rfl, rfl, rfl, rfl, rfl, rfl, rfl, rfl, rfl⟩

/-- C8 counterexample: the create request of create_stack_set declares
automatic deployment but carries no operation preferences at all, so it
does not declare parallel region concurrency with zero failure
tolerance. -/
theorem c8_counterexample :
    create_stack_set_extra_args.operationPreferences = none
    ∧ create_stack_set_extra_args.autoDeployment
        = some { enabled := true, retainStacksOnAccountRemoval := false } :=
  ⟨rfl, rfl⟩

/-- C8 amended: the stackset creation call declares service-managed
permissions and automatic deployment enabled with no stack retention on
account removal, and no operation preferences; the parallel region
concurrency with zero failure tolerance is declared by the stackset
update call and the instance-creation call instead. -/
theorem c8_amended :
    create_stack_set_extra_args
      = { permissionModel := some "SERVICE_MANAGED",
          autoDeployment := some { enabled := true, retainStacksOnAccountRemoval := false },
          operationPreferences := none }
    ∧ update_stack_set_extra_args.operationPreferences = some parallel_op_prefs
    ∧ (∀ (n ou : String) (ex : Option String) (rs : List String),
        (create_stack_instances_args n ou ex rs).operationPreferences = parallel_op_prefs)
    ∧ parallel_op_prefs
      = { regionConcurrencyType := "PARALLEL", failureTolerancePercentage := 0,
          maxConcurrentPercentage := 100, concurrencyMode := "SOFT_FAILURE_TOLERANCE" } :=
  ⟨rfl, rfl, fun _ _ _ _ => rfl, rfl⟩

/-- C1: under dry-run, process_stack issues none of the mutating remote
calls create_stack, execute_change_set, create_stack_set or
update_stack_set, its result is never Created or Updated but only
Skipped-DryRun or NoChanges, and create_stack_set_instances returns
without issuing create_stack_instances, for every remote environment. -/
theorem c1_dry_run_invariant (action : Action) (rtype : ResType) (env : RemoteEnv)
    (n ou : String) (ex : Option String) (rs : List String) :
    ((process_stack action rtype true env).2.filter isMutating = []
     ∧ dryOutcomeOk (process_stack action rtype true env).1 = true)
    ∧ create_stack_set_instances n ou ex rs true env = (.ok false, [], none) := by
  refine ⟨⟨?_, ?_⟩, rfl⟩
  · rw [process_stack, handleClientError_snd]
    exact (process_stack_try_dry action rtype env).1
  · exact handleClientError_dryOk _ (process_stack_try_dry action rtype env).2

/-- C2: when the try-block of a stack create or update raises a client
error, process_stack classifies a message containing the no-updates
substring as the NoChanges result and re-raises every other client
error unchanged. -/
theorem c2_failure_classification (action : Action) (dry : Bool) (env : RemoteEnv)
    (msg : String)
    (h : (process_stack_try action .stack dry env).1 = .error (.clientError msg)) :
    (containsSub msg noUpdatesMsg = true →
      (process_stack action .stack dry env).1 = .ok .noChanges)
    ∧ (containsSub msg noUpdatesMsg = false →
      (process_stack action .stack dry env).1 = .error (.clientError msg)) := by
  constructor <;> intro hc <;> simp [process_stack, handleClientError, h, hc]

/-- A remote environment whose create_stack call raises the no-updates
client error. -/
def envNoUpdates : RemoteEnv :=
  { createStackRes := .error (.clientError "No updates are to be performed.")
    createChangeSetRes := .ok ()
    describeChangeSet1 := .ok { status := "CREATE_COMPLETE", statusReason := "" }
    changeSetWaiterRes := .ok ()
    describeChangeSet2 := .ok { status := "CREATE_COMPLETE", statusReason := "" }
    executeChangeSetRes := .ok ()
    createStackSetRes := .ok ()
    updateStackSetRes := .ok ()
    createStackInstancesRes := .ok () }

/-- A remote environment whose create_stack call raises an unrelated
client error. -/
def envDenied : RemoteEnv :=
  { envNoUpdates with createStackRes := .error (.clientError "AccessDenied") }

/-- C2 witness: the no-updates client error becomes the NoChanges result
and an access-denied client error is re-raised. -/
theorem c2_witness :
    (process_stack .create .stack false envNoUpdates).1 = .ok .noChanges
    ∧ (process_stack .create .stack false envDenied).1
        = .error (.clientError "AccessDenied") := by
  constructor
  · exact (c2_failure_classification .create false envNoUpdates
      "No updates are to be performed." rfl).1 (by decide)
  · exact (c2_failure_classification .create false envDenied
      "AccessDenied" rfl).2 (by decide)

/-- C4: given that handle_stack_set is invoked with the admin account as
its account argument, as both call sites in process_cloudformation do
for stackset jobs, the mirroring phase after the stackset fan-out is
skipped entirely exactly when the excluded account equals the admin
account, and otherwise runs once per declared region, each region
performing exactly one standalone-stack write directed at the admin
account in that region. -/
theorem c4_admin_mirroring (account main_region admin : String)
    (regions : List String) (ex : Option String) (env : HsEnv)
    (hacc : account = admin) :
    (ex = some admin →
      handle_stack_set account regions main_region ex admin env
        = stacksetPhase admin main_region env)
    ∧ (ex ≠ some admin →
      handle_stack_set account regions main_region ex admin env
        = stacksetPhase admin main_region env
          ++ regions.flatMap (fun r => mirrorRegion admin admin r env)
      ∧ (∀ r, ((mirrorRegion admin admin r env).filter isStackWrite).length = 1)
      ∧ (∀ r c, c ∈ mirrorRegion admin admin r env → callTarget c = (admin, r))) := by
  subst hacc
  constructor
  · intro hx
    simp [handle_stack_set, hx]
  · intro hx
    refine ⟨by simp [handle_stack_set, hx], fun r => ?_, fun r c hc => ?_⟩
    · by_cases h1 : env.stackExists r
      · by_cases h2 : env.stackUpdateChanging r <;>
          simp [mirrorRegion, h1, h2, isStackWrite]
      · by_cases h2 : env.stackCreateChanging r <;>
          simp [mirrorRegion, h1, h2, isStackWrite]
    · by_cases h1 : env.stackExists r
      · by_cases h2 : env.stackUpdateChanging r <;>
          simp [mirrorRegion, h1, h2] at hc <;>
          rcases hc with rfl | rfl | rfl | rfl <;> rfl
      · by_cases h2 : env.stackCreateChanging r <;>
          simp [mirrorRegion, h1, h2] at hc <;>
          rcases hc with rfl | rfl | rfl <;> rfl

/-- An environment for the C4 witness: the stackset exists, the admin
stack does not, and stack creation reports a change in progress. -/
def hsEnvW : HsEnv :=
  { stacksetExists := true
    stacksetChanging := false
    stackExists := fun _ => false
    stackUpdateChanging := fun _ => false
    stackCreateChanging := fun _ => true }

/-- C4 witness: with the excluded account equal to the admin account the
trace is the stackset phase alone, and with no excluded account a
mirrored region performs exactly one standalone-stack write. -/
theorem c4_witness :
    handle_stack_set "111122223333" ["us-east-1"] "us-east-1"
        (some "111122223333") "111122223333" hsEnvW
      = stacksetPhase "111122223333" "us-east-1" hsEnvW
    ∧ ((mirrorRegion "111122223333" "111122223333" "eu-west-1" hsEnvW).filter
        isStackWrite).length = 1 := by
  refine ⟨?_, ?_⟩
  · exact (c4_admin_mirroring "111122223333" "us-east-1" "111122223333"
      ["us-east-1"] (some "111122223333") hsEnvW rfl).1 rfl
  · exact ((c4_admin_mirroring "111122223333" "us-east-1" "111122223333"
      ["eu-west-1"] none hsEnvW rfl).2 (by simp)).2.1 "eu-west-1"

/-- C9: in the fallback line-oriented parser, a pending logical name
with no Type field at one indentation level deeper before the next
logical name is silently omitted, the parse continuing exactly as if the
name had never been recorded, while a pending name whose next relevant
line is such a Type field is emitted with that type value. -/
theorem c9_typeless_names_dropped (k : Nat) (n : String) (lines : List String) :
    ((∀ l ∈ lines.takeWhile (fun l => !(isKey1 k l)), isType2 k l = false) →
      processAux k (some n) lines = processAux k none lines)
    ∧ (∀ pre l0 rest, lines = pre ++ l0 :: rest →
        (∀ l ∈ pre, isKey1 k l = false ∧ isType2 k l = false) →
        isKey1 k l0 = false → isType2 k l0 = true →
        processAux k (some n) lines = (n, typeVal l0) :: processAux k none rest) := by
  constructor
  · exact processAux_pending_drop k n lines
  · intro pre l0 rest hr hpre hk ht
    subst hr
    exact processAux_pending_emit k n pre l0 rest hpre hk ht

/-- C9 witness: a pending name followed only by a deeper Properties
block up to the next logical name contributes nothing, and a pending
name followed directly by a Type line is emitted with its type. -/
theorem c9_witness :
    processAux 2 (some "Orphan") ["    Properties:", "  Next:"]
      = processAux 2 none ["    Properties:", "  Next:"]
    ∧ processAux 2 (some "Bucket") ["    Type: AWS::S3::Bucket"]
      = [("Bucket", "AWS::S3::Bucket")] := by
  constructor
  · exact (c9_typeless_names_dropped 2 "Orphan"
      ["    Properties:", "  Next:"]).1 (by decide)
  · have h := (c9_typeless_names_dropped 2 "Bucket"
      ["    Type: AWS::S3::Bucket"]).2 [] "    Type: AWS::S3::Bucket" [] rfl
      (by simp) (by decide) (by decide)
    rw [h]
    decide

/-- C10: the structured path of parse_template keeps every Resources
entry even without a Type field, yielding a pair whose type component is
None, while the line-oriented fallback continues as if a type-less
pending name had never been recorded, so the two paths disagree on
type-less resources. -/
theorem c10_typeless_disagreement (res : List (String × Json)) (n : String)
    (fields : List (String × Json)) (tmpl : String) (k : Nat) (nm : String)
    (lines : List String) :
    ((n, Json.obj fields) ∈ res → fields.lookup "Type" = none →
      (n, (none : Option Json))
        ∈ parse_template (some (Json.obj [("Resources", Json.obj res)])) tmpl)
    ∧ ((∀ l ∈ lines.takeWhile (fun l => !(isKey1 k l)), isType2 k l = false) →
        processAux k (some nm) lines = processAux k none lines) := by
  constructor
  · intro hmem hlook
    have hred : parse_template (some (Json.obj [("Resources", Json.obj res)])) tmpl
        = resourceEntries res := by
      simp [parse_template, parse_template_structured, getMember, List.lookup]
    rw [hred]
    have h2 := resourceEntries_mem res n (Json.obj fields) hmem
    simpa [getMember, hlook] using h2
  · exact processAux_pending_drop k nm lines

/-- C10 witness: a resource declared without a Type field survives the
structured path as a pair with an absent type, and the same name pending
in the fallback contributes nothing. -/
theorem c10_witness :
    ("NoType", (none : Option Json)) ∈ parse_template
        (some (Json.obj [("Resources",
          Json.obj [("NoType", Json.obj [("Properties", Json.obj [])])])])) ""
    ∧ processAux 2 (some "NoType") ["    Properties:"]
        = processAux 2 none ["    Properties:"] := by
  constructor
  · exact (c10_typeless_disagreement
      [("NoType", Json.obj [("Properties", Json.obj [])])] "NoType"
      [("Properties", Json.obj [])] "" 2 "x" []).1 (by simp) rfl
  · exact (c10_typeless_disagreement [] "x" [] "" 2 "NoType"
      ["    Properties:"]).2 (by decide)

end Deploy
